import Mathlib

/-!
Shallow embedding of the torrust-tracker persistence adapters
(src/databases/sqlite.rs, src/databases/mysql.rs), the listener boot jobs
(src/jobs/tracker_api.rs, src/jobs/udp_tracker.rs) and the UDP announce
wrapper (src/udp/request.rs), together with theorems settling the frozen
claims about them.

Conventions of the embedding:
- Machine integers become Nat (unsigned: u32, u64, usize) or Int (signed:
  i64); seconds counts are Nat.
- A database relation is the list of its rows: the keys relation is a list
  of (key string, valid_until i64) pairs, the torrents relation a list of
  (info_hash string, completed u32) pairs, the whitelist a list of
  info_hash strings.
- Each adapter method takes a Bool recording whether acquiring a pooled
  connection succeeded (the `self.pool.get()` call in the source); a failed
  acquisition maps to `Error.DatabaseError`, as in every method of both
  source files.
- A Rust function that can panic (unwrap on None) is embedded with result
  type `Outcome`, whose `panicked` constructor marks process abortion.
-/

namespace Torrust

/-- Error kind used by the database layer at every call site of the two
adapter files (`Error::DatabaseError`, `Error::InvalidQuery`,
`Error::QueryReturnedNoRows`). -/
inductive Error where
  | DatabaseError
  | InvalidQuery
  | QueryReturnedNoRows
deriving DecidableEq, Repr

/-- Result of running an embedded Rust function: a normal `Result::Ok`
value, a normal `Result::Err` value, or a process abort (panic). -/
inductive Outcome (α : Type) where
  | ok (a : α)
  | err (e : Error)
  | panicked
deriving DecidableEq, Repr

/-- `auth::Key` as used by the adapters: the key string and the optional
absolute expiry in seconds (`valid_until: Option<DurationSinceUnixEpoch>`,
`None` = never expires). -/
structure Key where
  key : String
  valid_until : Option Nat
deriving DecidableEq, Repr

/-- One row of the keys relation: the key string and the stored
`valid_until` column, a signed 64-bit integer. -/
abbrev KeyRow := String × Int

/-- One row of the torrents relation: the info_hash string and the stored
`completed` counter. -/
abbrev TorrentRow := String × Nat

/-- The crate's `InfoHash` newtype over 20 bytes (`InfoHash(pub [u8; 20])`). -/
structure InfoHash where
  bytes : List Nat
deriving DecidableEq, Repr

/-- Value of one hexadecimal digit, accepting either case. -/
def hexVal (c : Char) : Option Nat :=
  if '0' ≤ c ∧ c ≤ '9' then some (c.toNat - '0'.toNat)
  else if 'a' ≤ c ∧ c ≤ 'f' then some (c.toNat - 'a'.toNat + 10)
  else if 'A' ≤ c ∧ c ≤ 'F' then some (c.toNat - 'A'.toNat + 10)
  else none

/-- Decode a list of hex digit characters, two per byte. -/
def hexBytes : List Char → Option (List Nat)
  | [] => some []
  | [_] => none
  | c1 :: c2 :: rest => do
      let hi ← hexVal c1
      let lo ← hexVal c2
      let bs ← hexBytes rest
      pure ((16 * hi + lo) :: bs)

/-- Modelled from the spec: `InfoHash::from_str` lives in
src/protocol/info_hash.rs, which is not among the provided source files.
The spec says the hex encoding is a 40-character string and parsing accepts
either case; the result is the 20 decoded bytes. -/
def InfoHash.from_str (s : String) : Option InfoHash :=
  if s.length = 40 then (hexBytes s.toList).map (fun bs => ⟨bs⟩) else none

/-! ## SQLite adapter (src/databases/sqlite.rs) -/

/-- A table of the database schema: its name, its columns and its UNIQUE
columns. -/
structure TableDef where
  name : String
  columns : List String
  uniqueCols : List String
deriving DecidableEq, Repr

/-- A schema is the list of its tables. -/
abbrev Schema := List TableDef

/-- Does a table of this name exist in the schema? -/
def tableExists (s : Schema) (n : String) : Bool :=
  s.any (fun td => td.name == n)

/-- Semantics of a CREATE TABLE IF NOT EXISTS statement: add the table
unless one of that name already exists. -/
def createTableIfNotExists (s : Schema) (t : TableDef) : Schema :=
  if tableExists s t.name then s else s ++ [t]

namespace Sqlite

/-- whitelist table of sqlite.rs: id PRIMARY KEY, info_hash NOT NULL UNIQUE. -/
def whitelistTable : TableDef :=
  { name := "whitelist", columns := ["id", "info_hash"], uniqueCols := ["info_hash"] }

/-- torrents table of sqlite.rs: id, info_hash UNIQUE, completed. -/
def torrentsTable : TableDef :=
  { name := "torrents", columns := ["id", "info_hash", "completed"], uniqueCols := ["info_hash"] }

/-- keys table of sqlite.rs: id, key UNIQUE, valid_until. -/
def keysTable : TableDef :=
  { name := "keys", columns := ["id", "key", "valid_until"], uniqueCols := ["key"] }

/-- `Sqlite::create_database_tables`: executes the three CREATE TABLE IF NOT
EXISTS statements in the order whitelist, keys, torrents. -/
def create_database_tables (conn : Bool) (s : Schema) : Outcome Schema :=
  if !conn then .err .DatabaseError
  else
    .ok (createTableIfNotExists
          (createTableIfNotExists
            (createTableIfNotExists s whitelistTable) keysTable) torrentsTable)

/-- Row loop of `Sqlite::load_persistent_torrents`: the per-row closure calls
`InfoHash::from_str(&info_hash_string).unwrap()`, so an unparsable stored
info_hash aborts the process. -/
def torrentRowsLoad : List TorrentRow → Outcome (List (InfoHash × Nat))
  | [] => .ok []
  | r :: rest =>
    match InfoHash.from_str r.1 with
    | none => .panicked
    | some ih =>
      match torrentRowsLoad rest with
      | .ok xs => .ok ((ih, r.2) :: xs)
      | .err e => .err e
      | .panicked => .panicked

/-- `Sqlite::load_persistent_torrents`: SELECT info_hash, completed FROM
torrents, mapping each row through the unwrapping closure. -/
def load_persistent_torrents (conn : Bool) (rows : List TorrentRow) :
    Outcome (List (InfoHash × Nat)) :=
  if !conn then .err .DatabaseError else torrentRowsLoad rows

/-- Per-row conversion of `Sqlite::load_keys`: the stored i64 `valid_until`
becomes `Some(DurationSinceUnixEpoch::from_secs(valid_until.unsigned_abs()))`. -/
def keyFromRow (r : KeyRow) : Key :=
  { key := r.1, valid_until := some r.2.natAbs }

/-- `Sqlite::load_keys`: SELECT key, valid_until FROM keys, converting every
row with `keyFromRow`. -/
def load_keys (conn : Bool) (rows : List KeyRow) : Outcome (List Key) :=
  if !conn then .err .DatabaseError else .ok (rows.map keyFromRow)

/-- Row loop of `Sqlite::load_whitelist`: the per-row closure calls
`InfoHash::from_str(&info_hash).unwrap()`. -/
def whitelistRowsLoad : List String → Outcome (List InfoHash)
  | [] => .ok []
  | s :: rest =>
    match InfoHash.from_str s with
    | none => .panicked
    | some ih =>
      match whitelistRowsLoad rest with
      | .ok xs => .ok (ih :: xs)
      | .err e => .err e
      | .panicked => .panicked

/-- `Sqlite::load_whitelist`: SELECT info_hash FROM whitelist, mapping each
row through the unwrapping closure. -/
def load_whitelist (conn : Bool) (rows : List String) : Outcome (List InfoHash) :=
  if !conn then .err .DatabaseError else whitelistRowsLoad rows

end Sqlite

/-- Relational semantics of the upsert statement shared by both dialects
(sqlite: INSERT ... ON CONFLICT(info_hash) DO UPDATE SET completed = ?2;
mysql: INSERT ... ON DUPLICATE KEY UPDATE completed = VALUES(completed)):
if a row with this info_hash exists its completed column is overwritten,
otherwise the row is inserted. -/
def upsertTorrent (ts : List TorrentRow) (ih : String) (completed : Nat) :
    List TorrentRow :=
  if ts.any (fun r => r.1 == ih) then
    ts.map (fun r => if r.1 == ih then (r.1, completed) else r)
  else ts ++ [(ih, completed)]

/-- Read the completed counter stored for an info_hash (SELECT completed FROM
torrents WHERE info_hash = ?): the first row whose info_hash matches. -/
def lookupCompleted : List TorrentRow → String → Option Nat
  | [], _ => none
  | r :: rest, ih => if r.1 == ih then some r.2 else lookupCompleted rest ih

namespace Sqlite

/-- `Sqlite::save_persistent_torrent`: runs the upsert; `conn.execute`
reports the number of affected rows (1 for an upsert that hit), and the
function returns Ok(()) when it is positive, QueryReturnedNoRows otherwise. -/
def save_persistent_torrent (conn : Bool) (ts : List TorrentRow)
    (ih : String) (completed : Nat) : Outcome (List TorrentRow) :=
  if !conn then .err .DatabaseError
  else
    let updated := 1
    if updated > 0 then .ok (upsertTorrent ts ih completed)
    else .err .QueryReturnedNoRows

/-- `Sqlite::get_key_from_keys`: SELECT key, valid_until FROM keys WHERE
key = ?; a found row is converted with unsigned_abs as in load_keys, an
empty result is `Err(Error::QueryReturnedNoRows)`. -/
def get_key_from_keys (conn : Bool) (keys : List KeyRow) (key : String) :
    Outcome Key :=
  if !conn then .err .DatabaseError
  else
    match keys.find? (fun r => r.1 == key) with
    | some r => .ok { key := r.1, valid_until := some r.2.natAbs }
    | none => .err .QueryReturnedNoRows

/-- `Sqlite::add_key_to_keys`: the parameter list evaluates
`auth_key.valid_until.unwrap().as_secs()`, so a key with
`valid_until = None` aborts the process before the INSERT runs; otherwise
the INSERT fails on the UNIQUE(key) constraint (InvalidQuery) or stores the
row and reports 1 affected row. -/
def add_key_to_keys (conn : Bool) (keys : List KeyRow) (auth_key : Key) :
    Outcome (Nat × List KeyRow) :=
  if !conn then .err .DatabaseError
  else
    match auth_key.valid_until with
    | none => .panicked
    | some v =>
      if keys.any (fun r => r.1 == auth_key.key) then .err .InvalidQuery
      else .ok (1, keys ++ [(auth_key.key, (v : Int))])

/-- `Sqlite::remove_key_from_keys`: DELETE FROM keys WHERE key = ?;
`conn.execute` reports the number of deleted rows, and the function returns
that count when positive, `Err(Error::QueryReturnedNoRows)` when zero. -/
def remove_key_from_keys (conn : Bool) (keys : List KeyRow) (key : String) :
    Outcome (Nat × List KeyRow) :=
  if !conn then .err .DatabaseError
  else
    let updated := keys.countP (fun r => r.1 == key)
    if updated > 0 then .ok (updated, keys.filter (fun r => r.1 != key))
    else .err .QueryReturnedNoRows

end Sqlite

/-! ## MySQL adapter (src/databases/mysql.rs) -/

namespace Mysql

/-- whitelist table of mysql.rs: id PRIMARY KEY, info_hash VARCHAR(40) UNIQUE. -/
def whitelistTable : TableDef :=
  { name := "whitelist", columns := ["id", "info_hash"], uniqueCols := ["info_hash"] }

/-- torrents table of mysql.rs: id, info_hash VARCHAR(40) UNIQUE, completed. -/
def torrentsTable : TableDef :=
  { name := "torrents", columns := ["id", "info_hash", "completed"], uniqueCols := ["info_hash"] }

/-- keys table of mysql.rs: id, key VARCHAR(32) UNIQUE, valid_until. -/
def keysTable : TableDef :=
  { name := "keys", columns := ["id", "key", "valid_until"], uniqueCols := ["key"] }

/-- `Mysql::create_database_tables`: executes the three CREATE TABLE IF NOT
EXISTS statements in the order torrents, keys, whitelist. -/
def create_database_tables (conn : Bool) (s : Schema) : Outcome Schema :=
  if !conn then .err .DatabaseError
  else
    .ok (createTableIfNotExists
          (createTableIfNotExists
            (createTableIfNotExists s torrentsTable) keysTable) whitelistTable)

/-- Row loop of `Mysql::load_persistent_torrents`: the per-row closure calls
`InfoHash::from_str(&info_hash_string).unwrap()`. -/
def torrentRowsLoad : List TorrentRow → Outcome (List (InfoHash × Nat))
  | [] => .ok []
  | r :: rest =>
    match InfoHash.from_str r.1 with
    | none => .panicked
    | some ih =>
      match torrentRowsLoad rest with
      | .ok xs => .ok ((ih, r.2) :: xs)
      | .err e => .err e
      | .panicked => .panicked

/-- `Mysql::load_persistent_torrents`. -/
def load_persistent_torrents (conn : Bool) (rows : List TorrentRow) :
    Outcome (List (InfoHash × Nat)) :=
  if !conn then .err .DatabaseError else torrentRowsLoad rows

/-- Per-row conversion of `Mysql::load_keys`: the stored i64 `valid_until`
becomes `Some(Duration::from_secs(valid_until.unsigned_abs()))`. -/
def keyFromRow (r : KeyRow) : Key :=
  { key := r.1, valid_until := some r.2.natAbs }

/-- `Mysql::load_keys`. -/
def load_keys (conn : Bool) (rows : List KeyRow) : Outcome (List Key) :=
  if !conn then .err .DatabaseError else .ok (rows.map keyFromRow)

/-- Row loop of `Mysql::load_whitelist`: the per-row closure calls
`InfoHash::from_str(&info_hash).unwrap()`. -/
def whitelistRowsLoad : List String → Outcome (List InfoHash)
  | [] => .ok []
  | s :: rest =>
    match InfoHash.from_str s with
    | none => .panicked
    | some ih =>
      match whitelistRowsLoad rest with
      | .ok xs => .ok (ih :: xs)
      | .err e => .err e
      | .panicked => .panicked

/-- `Mysql::load_whitelist`. -/
def load_whitelist (conn : Bool) (rows : List String) : Outcome (List InfoHash) :=
  if !conn then .err .DatabaseError else whitelistRowsLoad rows

/-- `Mysql::save_persistent_torrent`: runs the upsert through `exec_drop`,
which discards the affected-row count; success is Ok(()). -/
def save_persistent_torrent (conn : Bool) (ts : List TorrentRow)
    (ih : String) (completed : Nat) : Outcome (List TorrentRow) :=
  if !conn then .err .DatabaseError else .ok (upsertTorrent ts ih completed)

/-- `Mysql::get_key_from_keys`: `exec_first` on SELECT key, valid_until FROM
keys WHERE key = :key; a found row is converted with unsigned_abs, while an
empty result is `Err(Error::InvalidQuery)` (mysql.rs line 196). -/
def get_key_from_keys (conn : Bool) (keys : List KeyRow) (key : String) :
    Outcome Key :=
  if !conn then .err .DatabaseError
  else
    match keys.find? (fun r => r.1 == key) with
    | some r => .ok { key := r.1, valid_until := some r.2.natAbs }
    | none => .err .InvalidQuery

/-- `Mysql::add_key_to_keys`: the stored value is
`auth_key.valid_until.unwrap_or(Duration::ZERO).as_secs()`, so a key with
`valid_until = None` is stored with 0; a duplicate key makes the INSERT
fail (InvalidQuery); success is Ok(1). -/
def add_key_to_keys (conn : Bool) (keys : List KeyRow) (auth_key : Key) :
    Outcome (Nat × List KeyRow) :=
  if !conn then .err .DatabaseError
  else
    let v : Int := (auth_key.valid_until.getD 0 : Nat)
    if keys.any (fun r => r.1 == auth_key.key) then .err .InvalidQuery
    else .ok (1, keys ++ [(auth_key.key, v)])

/-- `Mysql::remove_key_from_keys`: DELETE FROM keys WHERE key = :key through
`exec_drop`, which discards the affected-row count; success is Ok(1)
whether or not any row was deleted. -/
def remove_key_from_keys (conn : Bool) (keys : List KeyRow) (key : String) :
    Outcome (Nat × List KeyRow) :=
  if !conn then .err .DatabaseError
  else .ok (1, keys.filter (fun r => r.1 != key))

end Mysql

/-! ## Listener boot jobs (src/jobs/tracker_api.rs, src/jobs/udp_tracker.rs) -/

/-- Observable step of a spawned listener task. -/
inductive JobEvent where
  | bindSocket
  | signalReady
  | serveTraffic
  | logWarning
deriving DecidableEq, BEq, Repr

/-- Outcome of a boot-side `start_job` call: it either returns the join
handle to the boot routine or panics. -/
inductive BootOutcome where
  | handleReturned
  | panicked
deriving DecidableEq, Repr

namespace tracker_api

/-- Modelled from the spec for the body of `api::server::start` (the file
src/api/server.rs is not among the provided sources): it binds the
listening socket and returns the serve future. The spawned task of
`tracker_api::start_job` then calls `server::start`, sends
`ApiServerJobStarted()` over the oneshot channel, and awaits the serve
future. -/
def serverTaskEvents : List JobEvent :=
  [JobEvent.bindSocket, JobEvent.signalReady, JobEvent.serveTraffic]

/-- Whether the spawned API task sends the ready notice. -/
def taskSignalled : Bool :=
  serverTaskEvents.contains JobEvent.signalReady

/-- Boot side of `tracker_api::start_job`: it awaits the oneshot receiver;
Ok means the ready notice arrived and the handle is returned, Err (the
sender dropped without sending) runs `panic!("the api server dropped")`. -/
def start_job (signalled : Bool) : BootOutcome :=
  if signalled then .handleReturned else .panicked

end tracker_api

namespace udp_tracker

/-- Events of the task spawned by `udp_tracker::start_job`: `Udp::new`
attempts the socket bind; on Ok the server starts serving, on Err the task
logs a warning and an error and ends. No ready notice exists anywhere in
this file. -/
def taskEvents (bindOk : Bool) : List JobEvent :=
  if bindOk then [JobEvent.bindSocket, JobEvent.serveTraffic]
  else [JobEvent.bindSocket, JobEvent.logWarning]

/-- Boot side of `udp_tracker::start_job`: it spawns the task and returns
the join handle immediately, waiting for nothing, whatever happens to the
bind. -/
def start_job (_bindOk : Bool) : BootOutcome :=
  .handleReturned

end udp_tracker

/-! ## UDP announce wrapper (src/udp/request.rs) -/

/-- Announce event of the external codec. -/
inductive AnnounceEvent where
  | started
  | stopped
  | completed
  | noneEvent
deriving DecidableEq, Repr

/-- The external codec's 20-byte peer id. -/
structure PeerId where
  bytes : List Nat
deriving DecidableEq, Repr

/-- The external codec's InfoHash newtype; field `bytes` stands for its
field `.0` of type [u8; 20]. -/
structure AquaticInfoHash where
  bytes : List Nat
deriving DecidableEq, Repr

/-- `aquatic_udp_protocol::AnnounceRequest`, fields as listed in the comment
block of src/udp/request.rs. -/
structure AnnounceRequest where
  connection_id : Int
  transaction_id : Int
  info_hash : AquaticInfoHash
  peer_id : PeerId
  bytes_downloaded : Nat
  bytes_uploaded : Nat
  bytes_left : Nat
  event : AnnounceEvent
  ip_address : Option (List Nat)
  key : Nat
  peers_wanted : Nat
  port : Nat
deriving DecidableEq, Repr

/-- `AnnounceWrapper` of src/udp/request.rs. -/
structure AnnounceWrapper where
  announce_request : AnnounceRequest
  info_hash : InfoHash
deriving DecidableEq, Repr

/-- `AnnounceWrapper::new`: clones the request and rebuilds the crate
InfoHash from the raw bytes of the request's info_hash. -/
def AnnounceWrapper.new (announce_request : AnnounceRequest) : AnnounceWrapper :=
  { announce_request := announce_request
    info_hash := ⟨announce_request.info_hash.bytes⟩ }

/-! ## Helper lemmas about the upsert -/

lemma overwrite_map_id (ts : List TorrentRow) (ih : String) (c : Nat)
    (hn : ts.any (fun r => r.1 == ih) = false) :
    ts.map (fun r => if r.1 == ih then (r.1, c) else r) = ts := by
  induction ts with
  | nil => rfl
  | cons a t iht =>
    simp only [List.any_cons, Bool.or_eq_false_iff] at hn
    have h1 : (if a.1 == ih then (a.1, c) else a) = a := if_neg (by simp [hn.1])
    rw [List.map_cons, h1, iht hn.2]

lemma any_overwrite (ts : List TorrentRow) (ih : String) (c : Nat) :
    (ts.map (fun r => if r.1 == ih then (r.1, c) else r)).any (fun r => r.1 == ih)
      = ts.any (fun r => r.1 == ih) := by
  induction ts with
  | nil => rfl
  | cons a t iht =>
    cases ha : (a.1 == ih) with
    | true =>
      have h1 : (if a.1 == ih then (a.1, c) else a) = (a.1, c) := if_pos ha
      rw [List.map_cons, List.any_cons, List.any_cons, h1, iht]
    | false =>
      have h1 : (if a.1 == ih then (a.1, c) else a) = a := if_neg (by simp [ha])
      rw [List.map_cons, List.any_cons, List.any_cons, h1, iht]

lemma overwrite_twice (ts : List TorrentRow) (ih : String) (c : Nat) :
    (ts.map (fun r => if r.1 == ih then (r.1, c) else r)).map
        (fun r => if r.1 == ih then (r.1, c) else r)
      = ts.map (fun r => if r.1 == ih then (r.1, c) else r) := by
  induction ts with
  | nil => rfl
  | cons a t iht =>
    rw [List.map_cons, List.map_cons, iht]
    congr 1
    cases ha : (a.1 == ih) <;> simp [ha]

lemma lookup_overwrite (ts : List TorrentRow) (ih : String) (c : Nat)
    (h : ts.any (fun r => r.1 == ih) = true) :
    lookupCompleted (ts.map (fun r => if r.1 == ih then (r.1, c) else r)) ih
      = some c := by
  induction ts with
  | nil => simp at h
  | cons a t iht =>
    cases ha : (a.1 == ih) with
    | true =>
      rw [List.map_cons]
      simp [lookupCompleted, ha]
    | false =>
      have ht : t.any (fun r => r.1 == ih) = true := by
        rw [List.any_cons, ha] at h
        simpa using h
      rw [List.map_cons]
      simp only [lookupCompleted, ha]
      simpa [ha] using iht ht

lemma lookup_append_new (ts : List TorrentRow) (ih : String) (c : Nat)
    (hn : ts.any (fun r => r.1 == ih) = false) :
    lookupCompleted (ts ++ [(ih, c)]) ih = some c := by
  induction ts with
  | nil => simp [lookupCompleted]
  | cons a t iht =>
    simp only [List.any_cons, Bool.or_eq_false_iff] at hn
    rw [List.cons_append]
    simpa [lookupCompleted, hn.1] using iht hn.2

lemma lookup_upsert (ts : List TorrentRow) (ih : String) (c : Nat) :
    lookupCompleted (upsertTorrent ts ih c) ih = some c := by
  cases h : ts.any (fun r => r.1 == ih) with
  | true =>
    unfold upsertTorrent
    rw [if_pos h]
    exact lookup_overwrite ts ih c h
  | false =>
    unfold upsertTorrent
    rw [if_neg (by simp [h])]
    exact lookup_append_new ts ih c h

lemma upsert_idem (ts : List TorrentRow) (ih : String) (c : Nat) :
    upsertTorrent (upsertTorrent ts ih c) ih c = upsertTorrent ts ih c := by
  cases h : ts.any (fun r => r.1 == ih) with
  | true =>
    have e1 : upsertTorrent ts ih c
        = ts.map (fun r => if r.1 == ih then (r.1, c) else r) := by
      unfold upsertTorrent
      rw [if_pos h]
    have h2 := any_overwrite ts ih c
    rw [e1]
    unfold upsertTorrent
    rw [if_pos (h2.trans h), overwrite_twice]
  | false =>
    have e1 : upsertTorrent ts ih c = ts ++ [(ih, c)] := by
      unfold upsertTorrent
      rw [if_neg (by simp [h])]
    have h2 : ((ts ++ [(ih, c)]).any fun r => r.1 == ih) = true := by
      rw [List.any_append]
      simp
    rw [e1]
    unfold upsertTorrent
    rw [if_pos h2, List.map_append, overwrite_map_id ts ih c h, List.map_cons,
      List.map_nil]
    simp

/-! ## Helper lemmas about the schema -/

lemma tableExists_cIne_self (s : Schema) (t : TableDef) :
    tableExists (createTableIfNotExists s t) t.name = true := by
  unfold createTableIfNotExists
  split
  next h => exact h
  next h => simp [tableExists, List.any_append]

lemma tableExists_cIne_mono (s : Schema) (t : TableDef) (n : String)
    (h : tableExists s n = true) :
    tableExists (createTableIfNotExists s t) n = true := by
  unfold createTableIfNotExists
  split
  · exact h
  · simp only [tableExists] at h
    simp [tableExists, List.any_append, h]

lemma cIne_of_exists (s : Schema) (t : TableDef)
    (h : tableExists s t.name = true) :
    createTableIfNotExists s t = s := by
  simp [createTableIfNotExists, h]

lemma tableExists_foldl_mono (l : List TableDef) (s : Schema) (n : String)
    (h : tableExists s n = true) :
    tableExists (l.foldl createTableIfNotExists s) n = true := by
  induction l generalizing s with
  | nil => simpa using h
  | cons a t iht => exact iht _ (tableExists_cIne_mono s a n h)

lemma tableExists_foldl_of_mem (l : List TableDef) (s : Schema) (n : String)
    (h : (l.map TableDef.name).contains n = true) :
    tableExists (l.foldl createTableIfNotExists s) n = true := by
  induction l generalizing s with
  | nil => simp at h
  | cons a t iht =>
    simp only [List.map_cons, List.contains_cons, Bool.or_eq_true] at h
    rcases h with h | h
    · have hn : n = a.name := by simpa using h
      subst hn
      exact tableExists_foldl_mono t _ _ (tableExists_cIne_self s a)
    · exact iht _ h

/-! ## Helper lemmas about the row-loading loops -/

lemma sqlite_whitelistRowsLoad_panics (rows : List String)
    (h : ∃ s ∈ rows, InfoHash.from_str s = none) :
    Sqlite.whitelistRowsLoad rows = .panicked := by
  induction rows with
  | nil => simp at h
  | cons a t iht =>
    obtain ⟨s, hs, hn⟩ := h
    rcases List.mem_cons.mp hs with rfl | hs
    · simp [Sqlite.whitelistRowsLoad, hn]
    · cases hfa : InfoHash.from_str a with
      | none => simp [Sqlite.whitelistRowsLoad, hfa]
      | some ih2 => simp [Sqlite.whitelistRowsLoad, hfa, iht ⟨s, hs, hn⟩]

lemma mysql_whitelistRowsLoad_panics (rows : List String)
    (h : ∃ s ∈ rows, InfoHash.from_str s = none) :
    Mysql.whitelistRowsLoad rows = .panicked := by
  induction rows with
  | nil => simp at h
  | cons a t iht =>
    obtain ⟨s, hs, hn⟩ := h
    rcases List.mem_cons.mp hs with rfl | hs
    · simp [Mysql.whitelistRowsLoad, hn]
    · cases hfa : InfoHash.from_str a with
      | none => simp [Mysql.whitelistRowsLoad, hfa]
      | some ih2 => simp [Mysql.whitelistRowsLoad, hfa, iht ⟨s, hs, hn⟩]

lemma sqlite_torrentRowsLoad_panics (rows : List TorrentRow)
    (h : ∃ r ∈ rows, InfoHash.from_str r.1 = none) :
    Sqlite.torrentRowsLoad rows = .panicked := by
  induction rows with
  | nil => simp at h
  | cons a t iht =>
    obtain ⟨r, hr, hn⟩ := h
    rcases List.mem_cons.mp hr with rfl | hr
    · simp [Sqlite.torrentRowsLoad, hn]
    · cases hfa : InfoHash.from_str a.1 with
      | none => simp [Sqlite.torrentRowsLoad, hfa]
      | some ih2 => simp [Sqlite.torrentRowsLoad, hfa, iht ⟨r, hr, hn⟩]

lemma mysql_torrentRowsLoad_panics (rows : List TorrentRow)
    (h : ∃ r ∈ rows, InfoHash.from_str r.1 = none) :
    Mysql.torrentRowsLoad rows = .panicked := by
  induction rows with
  | nil => simp at h
  | cons a t iht =>
    obtain ⟨r, hr, hn⟩ := h
    rcases List.mem_cons.mp hr with rfl | hr
    · simp [Mysql.torrentRowsLoad, hn]
    · cases hfa : InfoHash.from_str a.1 with
      | none => simp [Mysql.torrentRowsLoad, hfa]
      | some ih2 => simp [Mysql.torrentRowsLoad, hfa, iht ⟨r, hr, hn⟩]

/-! ## Remaining helper lemmas -/

lemma find?_head_key (k : String) (v : Int) (rest : List KeyRow) :
    ((k, v) :: rest).find? (fun r => r.1 == k) = some (k, v) :=
  List.find?_cons_of_pos _ (by simp)

lemma sqlite_create_stable (s2 : Schema)
    (hW : tableExists s2 Sqlite.whitelistTable.name = true)
    (hK : tableExists s2 Sqlite.keysTable.name = true)
    (hT : tableExists s2 Sqlite.torrentsTable.name = true) :
    Sqlite.create_database_tables true s2 = .ok s2 := by
  unfold Sqlite.create_database_tables
  rw [if_neg (by simp), cIne_of_exists s2 Sqlite.whitelistTable hW,
    cIne_of_exists s2 Sqlite.keysTable hK,
    cIne_of_exists s2 Sqlite.torrentsTable hT]

lemma mysql_create_stable (s2 : Schema)
    (hW : tableExists s2 Mysql.whitelistTable.name = true)
    (hK : tableExists s2 Mysql.keysTable.name = true)
    (hT : tableExists s2 Mysql.torrentsTable.name = true) :
    Mysql.create_database_tables true s2 = .ok s2 := by
  unfold Mysql.create_database_tables
  rw [if_neg (by simp), cIne_of_exists s2 Mysql.torrentsTable hT,
    cIne_of_exists s2 Mysql.keysTable hK,
    cIne_of_exists s2 Mysql.whitelistTable hW]

lemma sqlite_created_tables (s : Schema) :
    ∃ s2 : Schema,
        Sqlite.create_database_tables true s = .ok s2
      ∧ Sqlite.create_database_tables true s2 = .ok s2
      ∧ tableExists s2 "whitelist" = true
      ∧ tableExists s2 "keys" = true
      ∧ tableExists s2 "torrents" = true := by
  refine ⟨createTableIfNotExists (createTableIfNotExists
      (createTableIfNotExists s Sqlite.whitelistTable) Sqlite.keysTable)
      Sqlite.torrentsTable, rfl, ?_, ?_, ?_, ?_⟩
  · exact sqlite_create_stable _
      (tableExists_cIne_mono _ _ _ (tableExists_cIne_mono _ _ _
        (tableExists_cIne_self s Sqlite.whitelistTable)))
      (tableExists_cIne_mono _ _ _ (tableExists_cIne_self _ Sqlite.keysTable))
      (tableExists_cIne_self _ Sqlite.torrentsTable)
  · exact tableExists_cIne_mono _ _ _ (tableExists_cIne_mono _ _ _
      (tableExists_cIne_self s Sqlite.whitelistTable))
  · exact tableExists_cIne_mono _ _ _ (tableExists_cIne_self _ Sqlite.keysTable)
  · exact tableExists_cIne_self _ Sqlite.torrentsTable

lemma mysql_created_tables (s : Schema) :
    ∃ s2 : Schema,
        Mysql.create_database_tables true s = .ok s2
      ∧ Mysql.create_database_tables true s2 = .ok s2
      ∧ tableExists s2 "whitelist" = true
      ∧ tableExists s2 "keys" = true
      ∧ tableExists s2 "torrents" = true := by
  refine ⟨createTableIfNotExists (createTableIfNotExists
      (createTableIfNotExists s Mysql.torrentsTable) Mysql.keysTable)
      Mysql.whitelistTable, rfl, ?_, ?_, ?_, ?_⟩
  · exact mysql_create_stable _
      (tableExists_cIne_self _ Mysql.whitelistTable)
      (tableExists_cIne_mono _ _ _ (tableExists_cIne_self _ Mysql.keysTable))
      (tableExists_cIne_mono _ _ _ (tableExists_cIne_mono _ _ _
        (tableExists_cIne_self s Mysql.torrentsTable)))
  · exact tableExists_cIne_self _ Mysql.whitelistTable
  · exact tableExists_cIne_mono _ _ _ (tableExists_cIne_self _ Mysql.keysTable)
  · exact tableExists_cIne_mono _ _ _ (tableExists_cIne_mono _ _ _
      (tableExists_cIne_self s Mysql.torrentsTable))

/-! ## Claim theorems -/

/-- C1 (code evidence): add_key does not always complete with a Result.
With a never-expiring key (valid_until = None) the SQLite adapter aborts
the process through the unwrap in add_key_to_keys, while the MySQL adapter
returns Ok(1) and stores the key with expiry 0. -/
theorem sqlite_add_key_panics_on_none_key :
    Sqlite.add_key_to_keys true [] { key := "k", valid_until := none }
      = .panicked
  ∧ Mysql.add_key_to_keys true [] { key := "k", valid_until := none }
      = .ok (1, [("k", (0 : Int))]) := by
  decide

/-- C2 (code evidence): for a key string absent from the keys relation, the
SQLite adapter's get_key_from_keys returns the QueryReturnedNoRows
(NotFound) error, but the MySQL adapter's returns InvalidQuery. -/
theorem get_key_missing_row_error_variants :
    Sqlite.get_key_from_keys true [] "missing" = .err .QueryReturnedNoRows
  ∧ Mysql.get_key_from_keys true [] "missing" = .err .InvalidQuery
  ∧ Sqlite.get_key_from_keys true [("other", (5 : Int))] "missing"
      = .err .QueryReturnedNoRows
  ∧ Mysql.get_key_from_keys true [("other", (5 : Int))] "missing"
      = .err .InvalidQuery := by
  decide

/-- C3 (counterexample): at the concrete input of an empty keys relation and
key string "k", the two adapters' remove_key_from_keys results differ,
refuting the claimed equality of outcomes for an absent key. -/
theorem remove_key_adapters_disagree_on_absent_key :
    Sqlite.remove_key_from_keys true [] "k"
      ≠ Mysql.remove_key_from_keys true [] "k" := by
  decide

/-- C3 (amended): for every key string absent from the keys relation the
SQLite adapter's remove_key_from_keys returns the QueryReturnedNoRows error
while the MySQL adapter reports success Ok(1) with the relation unchanged;
the adapters do not produce the same outcome on this operation. -/
theorem remove_key_absent_outcomes (keys : List KeyRow) (key : String)
    (habs : keys.all (fun r => r.1 != key) = true) :
    Sqlite.remove_key_from_keys true keys key = .err .QueryReturnedNoRows
  ∧ Mysql.remove_key_from_keys true keys key = .ok (1, keys) := by
  have hall : ∀ r ∈ keys, (r.1 == key) = false := by
    intro r hr
    have h1 := List.all_eq_true.mp habs r hr
    simpa [bne] using h1
  constructor
  · have hcount : keys.countP (fun r => r.1 == key) = 0 :=
      List.countP_eq_zero.mpr (fun r hr => by simp [hall r hr])
    unfold Sqlite.remove_key_from_keys
    simp [hcount]
  · have hfil : keys.filter (fun r => r.1 != key) = keys :=
      List.filter_eq_self.mpr (fun r hr => by simp [bne, hall r hr])
    unfold Mysql.remove_key_from_keys
    simp [hfil]

/-- C3 (witness): the amended statement at the concrete relation with one
row ("a", 1) and the absent key "b". -/
theorem remove_key_absent_outcomes_witness :
    Sqlite.remove_key_from_keys true [("a", (1 : Int))] "b"
      = .err .QueryReturnedNoRows
  ∧ Mysql.remove_key_from_keys true [("a", (1 : Int))] "b"
      = .ok (1, [("a", (1 : Int))]) :=
  remove_key_absent_outcomes [("a", 1)] "b" (by decide)

/-- C4: save_persistent_torrent has upsert semantics in both adapters: after
a save the stored completed equals the supplied value (overwritten, not
added), a repeated call with equal arguments succeeds and returns the same
relation (idempotence), and after saving c1 then c2 the stored value is the
last-supplied c2. -/
theorem save_persistent_torrent_upsert_idempotent
    (ts : List TorrentRow) (ih : String) (c1 c2 : Nat) :
    Sqlite.save_persistent_torrent true ts ih c2 = .ok (upsertTorrent ts ih c2)
  ∧ Mysql.save_persistent_torrent true ts ih c2 = .ok (upsertTorrent ts ih c2)
  ∧ lookupCompleted (upsertTorrent ts ih c2) ih = some c2
  ∧ Sqlite.save_persistent_torrent true (upsertTorrent ts ih c2) ih c2
      = .ok (upsertTorrent ts ih c2)
  ∧ Mysql.save_persistent_torrent true (upsertTorrent ts ih c2) ih c2
      = .ok (upsertTorrent ts ih c2)
  ∧ lookupCompleted (upsertTorrent (upsertTorrent ts ih c1) ih c2) ih
      = some c2 := by
  refine ⟨rfl, rfl, lookup_upsert ts ih c2, ?_, ?_, lookup_upsert _ ih c2⟩
  · show Outcome.ok (upsertTorrent (upsertTorrent ts ih c2) ih c2) = _
    rw [upsert_idem]
  · show Outcome.ok (upsertTorrent (upsertTorrent ts ih c2) ih c2) = _
    rw [upsert_idem]

/-- C5 (counterexample): the UDP tracker job emits no ready signal even when
its bind succeeds, and when the bind fails (the spawned task ends without
ever signalling) the boot routine still gets the join handle back instead
of panicking. -/
theorem udp_job_never_signals_ready :
    (udp_tracker.taskEvents true).contains JobEvent.signalReady = false
  ∧ (udp_tracker.taskEvents false).contains JobEvent.signalReady = false
  ∧ udp_tracker.start_job false = BootOutcome.handleReturned := by
  decide

/-- C5 (amended): the management-API job signals ready after its socket is
bound and before serving traffic, and boot panics if that job drops before
signalling; the UDP tracker jobs never signal ready and boot returns the
handle whatever happens to them. -/
theorem listener_ready_signalling :
    tracker_api.serverTaskEvents.indexOf JobEvent.bindSocket
      < tracker_api.serverTaskEvents.indexOf JobEvent.signalReady
  ∧ tracker_api.serverTaskEvents.indexOf JobEvent.signalReady
      < tracker_api.serverTaskEvents.indexOf JobEvent.serveTraffic
  ∧ tracker_api.taskSignalled = true
  ∧ tracker_api.start_job tracker_api.taskSignalled = BootOutcome.handleReturned
  ∧ tracker_api.start_job false = BootOutcome.panicked
  ∧ (∀ b : Bool, (udp_tracker.taskEvents b).contains JobEvent.signalReady = false)
  ∧ (∀ b : Bool, udp_tracker.start_job b = BootOutcome.handleReturned) := by
  decide

/-- C6: a stored signed valid_until value v is read back as its absolute
magnitude in seconds by get_key_from_keys and load_keys in both adapters,
never as an error: the produced key has valid_until = some v.natAbs, and
v.natAbs equals the absolute value of v. -/
theorem valid_until_read_as_absolute_magnitude
    (k : String) (v : Int) (rest : List KeyRow) :
    Sqlite.get_key_from_keys true ((k, v) :: rest) k
      = .ok { key := k, valid_until := some v.natAbs }
  ∧ Mysql.get_key_from_keys true ((k, v) :: rest) k
      = .ok { key := k, valid_until := some v.natAbs }
  ∧ Sqlite.load_keys true ((k, v) :: rest)
      = .ok ({ key := k, valid_until := some v.natAbs }
          :: rest.map Sqlite.keyFromRow)
  ∧ Mysql.load_keys true ((k, v) :: rest)
      = .ok ({ key := k, valid_until := some v.natAbs }
          :: rest.map Mysql.keyFromRow)
  ∧ ((v.natAbs : Int) = |v|) := by
  refine ⟨?_, ?_, rfl, rfl, (Int.abs_eq_natAbs v).symm⟩
  · unfold Sqlite.get_key_from_keys
    rw [if_neg (by simp), find?_head_key]
  · unfold Mysql.get_key_from_keys
    rw [if_neg (by simp), find?_head_key]

/-- C7: schema creation is idempotent and ordering-tolerant in both
adapters: any call with a connection yields a schema containing the
whitelist, keys and torrents tables; a second call succeeds and leaves that
schema unchanged; from the empty schema the full table definitions with
their UNIQUE columns appear; and folding CREATE TABLE IF NOT EXISTS over
any list of tables, in any order, makes every listed table name exist. -/
theorem create_database_tables_idempotent_order_tolerant :
    (∀ s : Schema, ∃ s2 : Schema,
        Sqlite.create_database_tables true s = .ok s2
      ∧ Sqlite.create_database_tables true s2 = .ok s2
      ∧ tableExists s2 "whitelist" = true
      ∧ tableExists s2 "keys" = true
      ∧ tableExists s2 "torrents" = true)
  ∧ (∀ s : Schema, ∃ s2 : Schema,
        Mysql.create_database_tables true s = .ok s2
      ∧ Mysql.create_database_tables true s2 = .ok s2
      ∧ tableExists s2 "whitelist" = true
      ∧ tableExists s2 "keys" = true
      ∧ tableExists s2 "torrents" = true)
  ∧ Sqlite.create_database_tables true []
      = .ok [Sqlite.whitelistTable, Sqlite.keysTable, Sqlite.torrentsTable]
  ∧ Mysql.create_database_tables true []
      = .ok [Mysql.torrentsTable, Mysql.keysTable, Mysql.whitelistTable]
  ∧ (∀ (s : Schema) (l : List TableDef) (n : String),
      (l.map TableDef.name).contains n = true →
        tableExists (l.foldl createTableIfNotExists s) n = true) :=
  ⟨sqlite_created_tables, mysql_created_tables, by decide, by decide,
    fun s l n hmem => tableExists_foldl_of_mem l s n hmem⟩

/-- C7 (witness): the ordering-tolerance component at a concrete schema and
table order (keys, then torrents, then whitelist) makes torrents exist. -/
theorem create_database_tables_order_witness :
    tableExists ([Sqlite.keysTable, Sqlite.torrentsTable,
        Sqlite.whitelistTable].foldl createTableIfNotExists []) "torrents"
      = true :=
  create_database_tables_idempotent_order_tolerant.2.2.2.2 []
    [Sqlite.keysTable, Sqlite.torrentsTable, Sqlite.whitelistTable] "torrents"
    (by decide)

/-- C8: if any stored info_hash string fails 40-character hex parsing, all
four row-loading functions abort the process (unwrap panic) instead of
returning an error or skipping that row, in both adapters. -/
theorem invalid_stored_info_hash_aborts_loads
    (wrows : List String) (trows : List TorrentRow)
    (hw : ∃ s ∈ wrows, InfoHash.from_str s = none)
    (ht : ∃ r ∈ trows, InfoHash.from_str r.1 = none) :
    Sqlite.load_whitelist true wrows = .panicked
  ∧ Mysql.load_whitelist true wrows = .panicked
  ∧ Sqlite.load_persistent_torrents true trows = .panicked
  ∧ Mysql.load_persistent_torrents true trows = .panicked := by
  refine ⟨?_, ?_, ?_, ?_⟩
  · show Sqlite.whitelistRowsLoad wrows = .panicked
    exact sqlite_whitelistRowsLoad_panics wrows hw
  · show Mysql.whitelistRowsLoad wrows = .panicked
    exact mysql_whitelistRowsLoad_panics wrows hw
  · show Sqlite.torrentRowsLoad trows = .panicked
    exact sqlite_torrentRowsLoad_panics trows ht
  · show Mysql.torrentRowsLoad trows = .panicked
    exact mysql_torrentRowsLoad_panics trows ht

/-- C8 (witness): the statement at the concrete stored string "zz", which is
not a 40-character hex encoding. -/
theorem invalid_stored_info_hash_aborts_loads_witness :
    Sqlite.load_whitelist true ["zz"] = .panicked
  ∧ Mysql.load_whitelist true ["zz"] = .panicked
  ∧ Sqlite.load_persistent_torrents true [("zz", 7)] = .panicked
  ∧ Mysql.load_persistent_torrents true [("zz", 7)] = .panicked :=
  invalid_stored_info_hash_aborts_loads ["zz"] [("zz", 7)]
    ⟨"zz", by decide, by decide⟩ ⟨("zz", 7), by decide, by decide⟩

/-- C9: every key produced by load_keys or get_key_from_keys carries
valid_until = some value in both adapters, and a never-expiring key does
not round-trip through the MySQL adapter: add_key_to_keys stores it with 0
and load_keys reloads it with valid_until = some 0 seconds. -/
theorem loaded_keys_always_have_expiry (rows : List KeyRow) (k : String) :
    (∀ ks, Sqlite.load_keys true rows = .ok ks →
      ∀ kk ∈ ks, kk.valid_until.isSome = true)
  ∧ (∀ ks, Mysql.load_keys true rows = .ok ks →
      ∀ kk ∈ ks, kk.valid_until.isSome = true)
  ∧ (∀ s kk, Sqlite.get_key_from_keys true rows s = .ok kk →
      kk.valid_until.isSome = true)
  ∧ (∀ s kk, Mysql.get_key_from_keys true rows s = .ok kk →
      kk.valid_until.isSome = true)
  ∧ Mysql.add_key_to_keys true [] { key := k, valid_until := none }
      = .ok (1, [(k, (0 : Int))])
  ∧ Mysql.load_keys true [(k, (0 : Int))]
      = .ok [{ key := k, valid_until := some 0 }] := by
  refine ⟨?_, ?_, ?_, ?_, rfl, rfl⟩
  · intro ks hks kk hkk
    have h1 : Outcome.ok (rows.map Sqlite.keyFromRow) = Outcome.ok ks := hks
    injection h1 with h2
    subst h2
    obtain ⟨r, _, rfl⟩ := List.mem_map.mp hkk
    rfl
  · intro ks hks kk hkk
    have h1 : Outcome.ok (rows.map Mysql.keyFromRow) = Outcome.ok ks := hks
    injection h1 with h2
    subst h2
    obtain ⟨r, _, rfl⟩ := List.mem_map.mp hkk
    rfl
  · intro s kk h
    have h1 : (match rows.find? (fun r => r.1 == s) with
        | some r => Outcome.ok { key := r.1, valid_until := some r.2.natAbs }
        | none => Outcome.err Error.QueryReturnedNoRows) = Outcome.ok kk := h
    cases hf : rows.find? (fun r => r.1 == s) with
    | some r =>
      rw [hf] at h1
      injection h1 with h2
      subst h2
      rfl
    | none =>
      rw [hf] at h1
      exact Outcome.noConfusion h1
  · intro s kk h
    have h1 : (match rows.find? (fun r => r.1 == s) with
        | some r => Outcome.ok { key := r.1, valid_until := some r.2.natAbs }
        | none => Outcome.err Error.InvalidQuery) = Outcome.ok kk := h
    cases hf : rows.find? (fun r => r.1 == s) with
    | some r =>
      rw [hf] at h1
      injection h1 with h2
      subst h2
      rfl
    | none =>
      rw [hf] at h1
      exact Outcome.noConfusion h1

/-- C9 (witness): the statement at the concrete relation with one row
("a", 3) and never-expiring key "b". -/
theorem loaded_keys_always_have_expiry_witness :
    (Key.mk "a" (some 3)).valid_until.isSome = true
  ∧ Mysql.add_key_to_keys true [] { key := "b", valid_until := none }
      = .ok (1, [("b", (0 : Int))]) := by
  refine ⟨?_, (loaded_keys_always_have_expiry [("a", 3)] "b").2.2.2.2.1⟩
  exact (loaded_keys_always_have_expiry [("a", (3 : Int))] "b").1
    [Key.mk "a" (some 3)] (by decide) (Key.mk "a" (some 3)) (by decide)

/-- C10: AnnounceWrapper::new preserves the announce request it wraps and
copies the 20 info_hash bytes unchanged, bytewise. -/
theorem announce_wrapper_preserves_request (r : AnnounceRequest) :
    (AnnounceWrapper.new r).announce_request = r
  ∧ (AnnounceWrapper.new r).info_hash.bytes = r.info_hash.bytes
  ∧ ∀ i : Nat, (AnnounceWrapper.new r).info_hash.bytes[i]?
      = r.info_hash.bytes[i]? :=
  ⟨rfl, rfl, fun _ => rfl⟩

end Torrust
